import Mathlib

/-!
Shallow embedding of `custom_components/tahoma/tahoma_device.py`
(the `TahomaDevice` entity class of the ha-tahoma integration).

Modelling conventions:
* Python `None`-able scalar values become `Option String` (state values,
  attribute values, registry original names are dynamically typed and may
  be `None` in the source).
* The coordinator's data dictionary, the execution tracking dictionary and
  the attributes dictionary are modelled as insertion-ordered association
  lists with Python-dict semantics (`dictInsert` overwrites in place,
  appends new keys at the end; `dictGet` looks a key up).
* The async command protocol is modelled as a pure step function that also
  emits an ordered event trace (`ExecEvent`): `submitted`, `logged`,
  `recorded`, `refreshed`.  An event appears in the trace exactly when the
  corresponding awaited operation has completed before the coroutine
  returns, so trace order is the happens-before order inside one call.
* The hub client is a parameter: `HubResult` for `execute_command`
  (either an execution id or a raised exception message) and a function
  `String → Except String Unit` for `cancel_command`.
-/

/-- One state entry of a device: a namespaced name and a dynamically typed,
possibly `None`, value (`pyhoma.models.State`). -/
structure DeviceState where
  name : String
  value : Option String
  deriving DecidableEq, Repr

/-- The device snapshot (`pyhoma.models.Device`) as consumed by
`tahoma_device.py`: identity, labels, capability command names
(`definition.commands`), static attributes, state list, availability. -/
structure Device where
  deviceurl : String
  label : String
  ui_class : String
  widget : String
  controllable_name : String
  definition_commands : List String
  attributes : Option (List DeviceState)
  states : Option (List DeviceState)
  available : Bool
  deriving DecidableEq, Repr

/-- `ATTR_RSSI_LEVEL` constant from the source. -/
def ATTR_RSSI_LEVEL : String := "rssi_level"

/-- `CORE_RSSI_LEVEL_STATE` constant from the source. -/
def CORE_RSSI_LEVEL_STATE : String := "core:RSSILevelState"

/-- `CORE_MANUFACTURER_NAME_STATE` constant from the source. -/
def CORE_MANUFACTURER_NAME_STATE : String := "core:ManufacturerNameState"

/-- `CORE_MODEL_STATE` constant from the source. -/
def CORE_MODEL_STATE : String := "core:ModelState"

/-- `DOMAIN` constant imported from `.const` (not under the sources given;
its concrete value is irrelevant to every claim, only its use as the first
component of the `identifiers` pair matters). -/
def DOMAIN : String := "tahoma"

/-- `TahomaDevice.select_state`: Python
`if self.device.states: return next((state.value for state in
self.device.states if state.name in list(states)), None); return None`.
The generator yields `state.value` of the first entry whose name is a
member of the candidate tuple; that value may itself be `None`, which
`Option.bind` reproduces. An empty state list is falsy in Python, hence
the explicit emptiness test. -/
def select_state (dev : Device) (candidates : List String) : Option String :=
  match dev.states with
  | some states =>
      if states.isEmpty then none
      else (states.find? (fun st => candidates.contains st.name)).bind (fun st => st.value)
  | none => none

/-- `TahomaDevice.has_state`: `self.select_state(*states) is not None`. -/
def has_state (dev : Device) (candidates : List String) : Bool :=
  (select_state dev candidates).isSome

/-- `TahomaDevice.select_command`: first candidate command name contained in
`self.device.definition.commands`. -/
def select_command (dev : Device) (commands : List String) : Option String :=
  commands.find? (fun c => dev.definition_commands.contains c)

/-- `TahomaDevice.has_command`: `self.select_command(*commands) is not None`. -/
def has_command (dev : Device) (commands : List String) : Bool :=
  (select_command dev commands).isSome

/-- `TahomaDevice.assumed_state`:
`self.device.states is None or len(self.device.states) == 0`. -/
def assumed_state (dev : Device) : Bool :=
  match dev.states with
  | none => true
  | some l => l.length == 0

/-- `TahomaDevice.device` property: `self.coordinator.data[self.device_url]`.
The coordinator data dictionary is an association list; a `KeyError`
(identity absent) is the `none` result. -/
def coordinator_device (data : List (String × Device)) (device_url : String) :
    Option Device :=
  (data.find? (fun p => p.1 == device_url)).map (fun p => p.2)

-- Generic helper lemmas about `List.find?` used by several claims.

theorem find?_append_of_none {α : Type} (p : α → Bool) (l₁ l₂ : List α)
    (h : l₁.find? p = none) : (l₁ ++ l₂).find? p = l₂.find? p := by
  induction l₁ with
  | nil => rfl
  | cons a l ih =>
      cases hp : p a with
      | true =>
          rw [List.find?_cons_of_pos l hp] at h
          exact absurd h (by simp)
      | false =>
          have hp' : ¬ p a = true := by simp [hp]
          rw [List.find?_cons_of_neg l hp'] at h
          rw [List.cons_append, List.find?_cons_of_neg (l ++ l₂) hp']
          exact ih h

theorem find?_eq_none_of_all {α : Type} (p : α → Bool) (l : List α)
    (h : ∀ x ∈ l, p x = false) : l.find? p = none := by
  induction l with
  | nil => rfl
  | cons a l ih =>
      have hp' : ¬ p a = true := by simp [h a (by simp)]
      rw [List.find?_cons_of_neg l hp']
      exact ih (fun x hx => h x (by simp [hx]))

theorem find?_bind_value_none (p : DeviceState → Bool) (l : List DeviceState)
    (h : ∀ x ∈ l, p x = true → x.value = none) :
    (l.find? p).bind (fun st => st.value) = none := by
  cases hf : l.find? p with
  | none => rfl
  | some st =>
      have hm := List.mem_of_find?_eq_some hf
      have hp := List.find?_some hf
      simp [h st hm hp]

/-- Membership test via `List.contains` agrees with `∈`. -/
theorem contains_eq_true_iff {α : Type} [BEq α] [LawfulBEq α]
    (l : List α) (a : α) :
    l.contains a = true ↔ a ∈ l := by
  simp [List.contains]

/-- C1: `select_state` returns the value of the first entry of the stored
state list (in stored order) whose name is a member of the candidate list;
it returns `none` when no entry's name is a candidate, when the state list
is empty (vacuously covered by the second conjunct) and when it is absent. -/
theorem select_state_first_match :
    (∀ (dev : Device) (l₁ : List DeviceState) (st : DeviceState)
       (l₂ : List DeviceState) (C : List String),
       dev.states = some (l₁ ++ st :: l₂) → st.name ∈ C →
       (∀ st' ∈ l₁, st'.name ∉ C) →
       select_state dev C = st.value) ∧
    (∀ (dev : Device) (L : List DeviceState) (C : List String),
       dev.states = some L → (∀ st ∈ L, st.name ∉ C) →
       select_state dev C = none) ∧
    (∀ (dev : Device) (C : List String),
       dev.states = none → select_state dev C = none) := by
  refine ⟨?_, ?_, ?_⟩
  · intro dev l₁ st l₂ C hst hmem hpre
    have hempty : ¬ (l₁ ++ st :: l₂).isEmpty = true := by
      simp [List.isEmpty_iff]
    have h₁ : l₁.find? (fun x => C.contains x.name) = none := by
      apply find?_eq_none_of_all
      intro x hx
      cases hc : C.contains x.name with
      | false => rfl
      | true => exact absurd ((contains_eq_true_iff C x.name).mp hc) (hpre x hx)
    have h₂ : (l₁ ++ st :: l₂).find? (fun x => C.contains x.name) = some st := by
      rw [find?_append_of_none _ _ _ h₁]
      exact List.find?_cons_of_pos l₂ ((contains_eq_true_iff C st.name).mpr hmem)
    have hdef : select_state dev C =
        (if (l₁ ++ st :: l₂).isEmpty then none
         else ((l₁ ++ st :: l₂).find? (fun x => C.contains x.name)).bind
           (fun st => st.value)) := by
      unfold select_state
      rw [hst]
    rw [hdef, if_neg hempty, h₂]
    rfl
  · intro dev L C hst hall
    have h : L.find? (fun x => C.contains x.name) = none := by
      apply find?_eq_none_of_all
      intro x hx
      cases hc : C.contains x.name with
      | false => rfl
      | true => exact absurd ((contains_eq_true_iff C x.name).mp hc) (hall x hx)
    have hdef : select_state dev C =
        (if L.isEmpty then none
         else (L.find? (fun x => C.contains x.name)).bind (fun st => st.value)) := by
      unfold select_state
      rw [hst]
    rw [hdef]
    cases hL : L.isEmpty with
    | true => rw [if_pos rfl]
    | false =>
        rw [if_neg (by simp [hL]), h]
        rfl
  · intro dev C hst
    unfold select_state
    rw [hst]

/-- Witness for C1 at concrete inputs: state list with "B" stored before
"A", candidates containing both: B wins. -/
theorem select_state_first_match_witness :
    select_state
      { deviceurl := "io://1/1", label := "d", ui_class := "u", widget := "w",
        controllable_name := "c", definition_commands := [],
        attributes := none,
        states := some [⟨"B", some "vb"⟩, ⟨"A", some "va"⟩],
        available := true } ["A", "B"] = some "vb" :=
  select_state_first_match.1
    { deviceurl := "io://1/1", label := "d", ui_class := "u", widget := "w",
      controllable_name := "c", definition_commands := [],
      attributes := none,
      states := some [⟨"B", some "vb"⟩, ⟨"A", some "va"⟩],
      available := true }
    [] ⟨"B", some "vb"⟩ [⟨"A", some "va"⟩] ["A", "B"]
    (by rfl) (by decide) (by intro st' h; cases h)

/-- C9: `assumed_state` is true iff the state list is absent or empty. -/
theorem assumed_state_iff (dev : Device) :
    assumed_state dev = true ↔ dev.states = none ∨ dev.states = some [] := by
  cases h : dev.states with
  | none => simp [assumed_state, h]
  | some l =>
      cases l with
      | nil => simp [assumed_state, h]
      | cons a t => simp [assumed_state, h]

/-- Witness for C9 at a concrete snapshot with an empty state list. -/
theorem assumed_state_iff_witness :
    assumed_state
      { deviceurl := "io://1/1", label := "d", ui_class := "u", widget := "w",
        controllable_name := "c", definition_commands := [],
        attributes := none, states := some [], available := true } = true :=
  (assumed_state_iff _).mpr (Or.inr rfl)

/-- C6: `select_command` returns the first candidate name (in the caller's
order) present in the capability set, and `none` when no candidate is. -/
theorem select_command_first_supported :
    (∀ (dev : Device) (c₁ : List String) (c : String) (c₂ : List String),
       (∀ c' ∈ c₁, c' ∉ dev.definition_commands) →
       c ∈ dev.definition_commands →
       select_command dev (c₁ ++ c :: c₂) = some c) ∧
    (∀ (dev : Device) (cs : List String),
       (∀ c ∈ cs, c ∉ dev.definition_commands) →
       select_command dev cs = none) := by
  constructor
  · intro dev c₁ c c₂ hpre hc
    have h₁ : c₁.find? (fun x => dev.definition_commands.contains x) = none := by
      apply find?_eq_none_of_all
      intro x hx
      cases hk : dev.definition_commands.contains x with
      | false => rfl
      | true =>
          exact absurd ((contains_eq_true_iff dev.definition_commands x).mp hk)
            (hpre x hx)
    unfold select_command
    rw [find?_append_of_none _ _ _ h₁]
    exact List.find?_cons_of_pos c₂
      ((contains_eq_true_iff dev.definition_commands c).mpr hc)
  · intro dev cs hall
    unfold select_command
    apply find?_eq_none_of_all
    intro x hx
    cases hk : dev.definition_commands.contains x with
    | false => rfl
    | true =>
        exact absurd ((contains_eq_true_iff dev.definition_commands x).mp hk)
          (hall x hx)

/-- Witness for C6: capability set `{"open","close"}` and candidates
`["toggle","close","open"]` give `"close"`. -/
theorem select_command_first_supported_witness :
    select_command
      { deviceurl := "io://1/1", label := "d", ui_class := "u", widget := "w",
        controllable_name := "c", definition_commands := ["open", "close"],
        attributes := none, states := none, available := true }
      ["toggle", "close", "open"] = some "close" :=
  select_command_first_supported.1
    { deviceurl := "io://1/1", label := "d", ui_class := "u", widget := "w",
      controllable_name := "c", definition_commands := ["open", "close"],
      attributes := none, states := none, available := true }
    ["toggle"] "close" ["open"] (by decide) (by decide)

/-- C10: a matching state entry whose value is `None` is indistinguishable
from an absent one — `select_state` yields `none` and `has_state` is false
even though an entry with a candidate name exists in the list. -/
theorem select_state_none_value_indistinguishable :
    ∀ (dev : Device) (l₁ : List DeviceState) (st : DeviceState)
      (l₂ : List DeviceState) (C : List String),
      dev.states = some (l₁ ++ st :: l₂) → st.name ∈ C → st.value = none →
      (∀ st' ∈ l₁, st'.name ∈ C → st'.value = none) →
      select_state dev C = none ∧ has_state dev C = false := by
  intro dev l₁ st l₂ C hst hmem hval hpre
  have hsel : select_state dev C = none := by
    have hdef : select_state dev C =
        (if (l₁ ++ st :: l₂).isEmpty then none
         else ((l₁ ++ st :: l₂).find? (fun x => C.contains x.name)).bind
           (fun st => st.value)) := by
      unfold select_state
      rw [hst]
    have hbind :
        ((l₁ ++ st :: l₂).find? (fun x => C.contains x.name)).bind
          (fun st => st.value) = none := by
      rw [List.find?_append]
      cases hf : l₁.find? (fun x => C.contains x.name) with
      | some x =>
          have hx₁ : x ∈ l₁ := List.mem_of_find?_eq_some hf
          have hx₂ := List.find?_some hf
          have hxv : x.value = none :=
            hpre x hx₁ ((contains_eq_true_iff C x.name).mp hx₂)
          exact hxv
      | none =>
          have hfirst : (st :: l₂).find? (fun x => C.contains x.name) = some st :=
            List.find?_cons_of_pos l₂ ((contains_eq_true_iff C st.name).mpr hmem)
          rw [hfirst]
          exact hval
    rw [hdef, hbind]
    split <;> rfl
  refine ⟨hsel, ?_⟩
  unfold has_state
  rw [hsel]
  rfl

/-- Witness for C10: a single candidate-named state with a `None` value. -/
theorem select_state_none_value_indistinguishable_witness :
    select_state
      { deviceurl := "io://1/1", label := "d", ui_class := "u", widget := "w",
        controllable_name := "c", definition_commands := [],
        attributes := none, states := some [⟨"core:RSSILevelState", none⟩],
        available := true } ["core:RSSILevelState"] = none ∧
    has_state
      { deviceurl := "io://1/1", label := "d", ui_class := "u", widget := "w",
        controllable_name := "c", definition_commands := [],
        attributes := none, states := some [⟨"core:RSSILevelState", none⟩],
        available := true } ["core:RSSILevelState"] = false :=
  select_state_none_value_indistinguishable
    { deviceurl := "io://1/1", label := "d", ui_class := "u", widget := "w",
      controllable_name := "c", definition_commands := [],
      attributes := none, states := some [⟨"core:RSSILevelState", none⟩],
      available := true }
    [] ⟨"core:RSSILevelState", none⟩ [] ["core:RSSILevelState"]
    (by rfl) (by decide) (by rfl) (by intro st' h; cases h)

/-- C7: the `device` accessor fails (Python `KeyError`, modelled as `none`)
exactly when the bound identity is absent from the coordinator's data
dictionary, and otherwise returns a snapshot stored under that identity. -/
theorem coordinator_device_notfound :
    (∀ (data : List (String × Device)) (url : String),
       coordinator_device data url = none ↔ ∀ p ∈ data, p.1 ≠ url) ∧
    (∀ (data : List (String × Device)) (url : String) (d : Device),
       coordinator_device data url = some d → (url, d) ∈ data) := by
  constructor
  · intro data url
    constructor
    · intro h p hp hurl
      have : data.find? (fun p => p.1 == url) = none := by
        unfold coordinator_device at h
        cases hf : data.find? (fun p => p.1 == url) with
        | none => rfl
        | some q => rw [hf] at h; exact absurd h (by simp)
      have hall := List.find?_eq_none.mp this p hp
      simp [hurl] at hall
    · intro h
      unfold coordinator_device
      rw [find?_eq_none_of_all]
      · rfl
      · intro p hp
        cases hq : (p.1 == url) with
        | false => rfl
        | true => exact absurd (by simpa using hq) (h p hp)
  · intro data url d h
    unfold coordinator_device at h
    cases hf : data.find? (fun p => p.1 == url) with
    | none => rw [hf] at h; exact absurd h (by simp)
    | some q =>
        rw [hf] at h
        have hq : q ∈ data := List.mem_of_find?_eq_some hf
        have hk := List.find?_some hf
        have hk' : q.1 = url := by simpa using hk
        have hd : q.2 = d := by simpa using h
        have : q = (url, d) := by
          cases q
          simp_all
        rw [this] at hq
        exact hq

/-- Witness for C7: empty store gives `none`; singleton store holds. -/
theorem coordinator_device_notfound_witness :
    coordinator_device [] "io://1/1" = none :=
  (coordinator_device_notfound.1 [] "io://1/1").mpr (by intro p hp; cases hp)

-- Python-dict semantics on association lists: update overwrites the value
-- of an existing key in place (keeping insertion order), new keys go last.

def dictInsert {α : Type} : List (String × α) → String → α → List (String × α)
  | [], k, v => [(k, v)]
  | (k', v') :: rest, k, v =>
      if k' == k then (k, v) :: rest else (k', v') :: dictInsert rest k v

def dictGet {α : Type} : List (String × α) → String → Option α
  | [], _ => none
  | (k', v) :: rest, k => if k' == k then some v else dictGet rest k

theorem dictGet_dictInsert {α : Type} (d : List (String × α)) (k k' : String)
    (v : α) :
    dictGet (dictInsert d k v) k' = if k == k' then some v else dictGet d k' := by
  induction d with
  | nil =>
      unfold dictInsert dictGet
      cases h : (k == k') with
      | true => simp [h]
      | false => simp [h, dictGet]
  | cons p rest ih =>
      obtain ⟨k₀, v₀⟩ := p
      unfold dictInsert
      cases h₀ : (k₀ == k) with
      | true =>
          have hk : k₀ = k := by simpa using h₀
          unfold dictGet
          cases h₁ : (k == k') with
          | true => simp [h₁]
          | false => simp [h₁, hk ▸ h₁]
      | false =>
          unfold dictGet
          cases h₁ : (k₀ == k') with
          | true =>
              have e₀ : k₀ = k' := by simpa using h₁
              have : (k == k') = false := by
                cases h₂ : (k == k') with
                | false => rfl
                | true =>
                    have : k = k' := by simpa using h₂
                    rw [e₀, this] at h₀
                    simp at h₀
              simp [h₁, this]
          | false => simp [h₁, ih]

/-- The execution tracking dictionary `coordinator.executions`: execution
identifier → `{"deviceurl": ..., "command_name": ...}`. -/
structure TrackEntry where
  deviceurl : String
  command_name : String
  deriving DecidableEq, Repr

/-- Result of `client.execute_command`: an execution id, or a raised
exception carrying a message. -/
inductive HubResult where
  | ok (exec_id : String)
  | error (msg : String)
  deriving DecidableEq, Repr

/-- Ordered trace of the awaited operations completed inside one
`async_execute_command` call, in completion (happens-before) order. -/
inductive ExecEvent where
  | submitted (deviceurl : String) (command : String) (args : List String)
  | logged (msg : String)
  | recorded (exec_id : String)
  | refreshed
  deriving DecidableEq, Repr

/-- `TahomaDevice.async_execute_command`: submits
`Command(command_name, list(args))` for `self.device.deviceurl` with the
`"Home Assistant"` originator.  The broad `except Exception` clause logs
the failure and returns — so the embedding is a total function; no error
escapes in either branch.  On success the tracking entry is stored in
`coordinator.executions` and only then `coordinator.async_refresh()` is
awaited.  The returned trace lists the completed awaited operations in
order. -/
def async_execute_command (dev : Device) (command_name : String)
    (args : List String) (hub : HubResult)
    (executions : List (String × TrackEntry)) :
    List (String × TrackEntry) × List ExecEvent :=
  match hub with
  | .error msg =>
      (executions,
       [.submitted dev.deviceurl command_name args, .logged msg])
  | .ok exec_id =>
      (dictInsert executions exec_id ⟨dev.deviceurl, command_name⟩,
       [.submitted dev.deviceurl command_name args, .recorded exec_id,
        .refreshed])

/-- `TahomaDevice.async_cancel_command`: a single awaited call
`self.coordinator.client.cancel_command(exec_id)`; the client's outcome is
a parameter and is returned as the outcome of the whole operation.  The
tracking dictionary and the snapshot store are not read or written. -/
def async_cancel_command (cancel : String → Except String Unit)
    (exec_id : String) (executions : List (String × TrackEntry))
    (data : List (String × Device)) :
    Except String Unit × List (String × TrackEntry) × List (String × Device) :=
  (cancel exec_id, executions, data)

/-- C2: when the hub accepts the submission with identifier `e`, the
tracking entry {device identity, command name} is retrievable under `e`
in the resulting table, the `recorded` event strictly precedes the
`refreshed` event in the trace (creation happens-before the forced
refresh), and `refreshed` is in the trace, i.e. the forced refresh has
completed before the call returns. -/
theorem async_execute_command_tracks_then_refreshes :
    ∀ (dev : Device) (command_name : String) (args : List String)
      (e : String) (executions : List (String × TrackEntry)),
      dictGet (async_execute_command dev command_name args (.ok e) executions).1 e
        = some ⟨dev.deviceurl, command_name⟩ ∧
      (∃ i j : Nat,
        (async_execute_command dev command_name args (.ok e) executions).2.get? i
          = some (.recorded e) ∧
        (async_execute_command dev command_name args (.ok e) executions).2.get? j
          = some .refreshed ∧
        i < j) ∧
      ExecEvent.refreshed
        ∈ (async_execute_command dev command_name args (.ok e) executions).2 := by
  intro dev command_name args e executions
  refine ⟨?_, ⟨1, 2, rfl, rfl, by decide⟩, by simp [async_execute_command]⟩
  show dictGet (dictInsert executions e ⟨dev.deviceurl, command_name⟩) e
      = some ⟨dev.deviceurl, command_name⟩
  rw [dictGet_dictInsert]
  simp

/-- Witness for C2 at concrete inputs (execution id `"E1"`). -/
theorem async_execute_command_tracks_then_refreshes_witness :
    dictGet
      (async_execute_command
        { deviceurl := "io://1/1", label := "d", ui_class := "u",
          widget := "w", controllable_name := "c", definition_commands := [],
          attributes := none, states := none, available := true }
        "open" [] (.ok "E1") []).1 "E1" = some ⟨"io://1/1", "open"⟩ :=
  (async_execute_command_tracks_then_refreshes
    { deviceurl := "io://1/1", label := "d", ui_class := "u",
      widget := "w", controllable_name := "c", definition_commands := [],
      attributes := none, states := none, available := true }
    "open" [] "E1" []).1

/-- C3: when the hub client raises, the call still returns normally (the
embedding is a total function — the `except Exception` clause swallows the
error), the tracking table is returned unchanged, no entry is recorded, no
forced refresh happens, and the failure shows up only as a `logged` event. -/
theorem async_execute_command_failure_silent :
    ∀ (dev : Device) (command_name : String) (args : List String)
      (msg : String) (executions : List (String × TrackEntry)),
      (async_execute_command dev command_name args (.error msg) executions).1
        = executions ∧
      ExecEvent.refreshed
        ∉ (async_execute_command dev command_name args (.error msg) executions).2 ∧
      (∀ e : String, ExecEvent.recorded e
        ∉ (async_execute_command dev command_name args (.error msg) executions).2) ∧
      ExecEvent.logged msg
        ∈ (async_execute_command dev command_name args (.error msg) executions).2 := by
  intro dev command_name args msg executions
  refine ⟨rfl, ?_, ?_, ?_⟩
  · simp [async_execute_command]
  · intro e
    simp [async_execute_command]
  · simp [async_execute_command]

/-- Witness for C3 at concrete inputs. -/
theorem async_execute_command_failure_silent_witness :
    (async_execute_command
      { deviceurl := "io://1/1", label := "d", ui_class := "u",
        widget := "w", controllable_name := "c", definition_commands := [],
        attributes := none, states := none, available := true }
      "open" [] (.error "boom") [("E0", ⟨"io://2/2", "close"⟩)]).1
      = [("E0", ⟨"io://2/2", "close"⟩)] :=
  (async_execute_command_failure_silent
    { deviceurl := "io://1/1", label := "d", ui_class := "u",
      widget := "w", controllable_name := "c", definition_commands := [],
      attributes := none, states := none, available := true }
    "open" [] "boom" [("E0", ⟨"io://2/2", "close"⟩)]).1

/-- C8: cancellation forwards the execution identifier to the hub client,
returns the client's outcome unchanged (so a client failure propagates
as-is, and no error is suppressed), and leaves both the tracking table and
the snapshot store untouched. -/
theorem async_cancel_command_forwards :
    ∀ (cancel : String → Except String Unit) (exec_id : String)
      (executions : List (String × TrackEntry))
      (data : List (String × Device)),
      (async_cancel_command cancel exec_id executions data).1 = cancel exec_id ∧
      (async_cancel_command cancel exec_id executions data).2.1 = executions ∧
      (async_cancel_command cancel exec_id executions data).2.2 = data := by
  intro cancel exec_id executions data
  exact ⟨rfl, rfl, rfl⟩

-- Substring test on character lists, for Python's `"State" in state.name`.

def startsWithChars : List Char → List Char → Bool
  | [], _ => true
  | _ :: _, [] => false
  | a :: as, b :: bs => a == b && startsWithChars as bs

def hasSubChars (needle : List Char) : List Char → Bool
  | [] => startsWithChars needle []
  | c :: rest => startsWithChars needle (c :: rest) || hasSubChars needle rest

/-- Python `"State" in state.name`. -/
def nameHasState (name : String) : Bool :=
  hasSubChars "State".data name.data

/-- `device_state_attributes`, value of `attr` after the initial dict
literal: ui/widget/controllable fields. -/
def attrStep0 (dev : Device) : List (String × Option String) :=
  [("ui_class", some dev.ui_class), ("widget", some dev.widget),
   ("controllable_name", some dev.controllable_name)]

/-- `device_state_attributes`, value of `attr` after the RSSI block:
the entry is added exactly when the well-known RSSI state is active. -/
def attrStep1 (dev : Device) : List (String × Option String) :=
  if has_state dev [CORE_RSSI_LEVEL_STATE] then
    dictInsert (attrStep0 dev) ATTR_RSSI_LEVEL
      (select_state dev [CORE_RSSI_LEVEL_STATE])
  else attrStep0 dev

/-- `device_state_attributes`, value of `attr` after the static-attribute
loop (`if self.device.attributes:` is falsy for `None` and for an empty
list; skipping an empty loop is a no-op either way). -/
def attrStep2 (dev : Device) : List (String × Option String) :=
  match dev.attributes with
  | some attrs =>
      if attrs.isEmpty then attrStep1 dev
      else attrs.foldl (fun a ab => dictInsert a ab.name ab.value) (attrStep1 dev)
  | none => attrStep1 dev

/-- `TahomaDevice.device_state_attributes`: builds the Python dict in the
source's literal order — ui/widget/controllable fields, then the RSSI
entry when the well-known RSSI state is active, then every static
attribute, then every state whose name contains `"State"`. -/
def device_state_attributes (dev : Device) : List (String × Option String) :=
  match dev.states with
  | some states =>
      if states.isEmpty then attrStep2 dev
      else states.foldl
        (fun a st => if nameHasState st.name then dictInsert a st.name st.value
                     else a) (attrStep2 dev)
  | none => attrStep2 dev

-- Specification-side description of the same merge as one flat write
-- sequence, in the claimed order.

def baseWrites (dev : Device) : List (String × Option String) :=
  [("ui_class", some dev.ui_class), ("widget", some dev.widget),
   ("controllable_name", some dev.controllable_name)]

def rssiWrites (dev : Device) : List (String × Option String) :=
  if has_state dev [CORE_RSSI_LEVEL_STATE] then
    [(ATTR_RSSI_LEVEL, select_state dev [CORE_RSSI_LEVEL_STATE])]
  else []

def staticWrites (dev : Device) : List (String × Option String) :=
  (dev.attributes.getD []).map (fun ab => (ab.name, ab.value))

def stateWrites (dev : Device) : List (String × Option String) :=
  ((dev.states.getD []).filter (fun st => nameHasState st.name)).map
    (fun st => (st.name, st.value))

def allWrites (dev : Device) : List (String × Option String) :=
  baseWrites dev ++ rssiWrites dev ++ staticWrites dev ++ stateWrites dev

def foldInserts {α : Type} (d : List (String × α))
    (l : List (String × α)) : List (String × α) :=
  l.foldl (fun a p => dictInsert a p.1 p.2) d

theorem foldInserts_append {α : Type} (d : List (String × α))
    (l₁ l₂ : List (String × α)) :
    foldInserts d (l₁ ++ l₂) = foldInserts (foldInserts d l₁) l₂ := by
  simp [foldInserts, List.foldl_append]

theorem dictGet_foldInserts {α : Type} (l : List (String × α))
    (d : List (String × α)) (k : String) :
    dictGet (foldInserts d l) k =
      ((l.reverse.find? (fun p => p.1 == k)).map (fun p => p.2)).or
        (dictGet d k) := by
  induction l generalizing d with
  | nil => simp [foldInserts]
  | cons p l ih =>
      show dictGet (foldInserts (dictInsert d p.1 p.2) l) k = _
      rw [ih, dictGet_dictInsert, List.reverse_cons, List.find?_append]
      cases hf : l.reverse.find? (fun p => p.1 == k) with
      | some q => simp
      | none =>
          cases hpk : (p.1 == k) with
          | true => simp [List.find?, hpk]
          | false => simp [List.find?, hpk]

theorem foldl_dictInsert_eq (attrs : List DeviceState)
    (d : List (String × Option String)) :
    attrs.foldl (fun a ab => dictInsert a ab.name ab.value) d =
      foldInserts d (attrs.map (fun ab => (ab.name, ab.value))) := by
  induction attrs generalizing d with
  | nil => rfl
  | cons a l ih => exact ih (dictInsert d a.name a.value)

theorem foldl_state_dictInsert_eq (states : List DeviceState)
    (d : List (String × Option String)) :
    states.foldl
        (fun a st => if nameHasState st.name then dictInsert a st.name st.value
                     else a) d =
      foldInserts d
        ((states.filter (fun st => nameHasState st.name)).map
          (fun st => (st.name, st.value))) := by
  induction states generalizing d with
  | nil => rfl
  | cons s l ih =>
      rw [List.foldl_cons, List.filter_cons]
      cases hs : nameHasState s.name with
      | true =>
          simp only [if_pos rfl]
          exact ih (dictInsert d s.name s.value)
      | false =>
          simp only [Bool.false_eq_true, if_false]
          exact ih d

theorem device_state_attributes_eq_foldInserts (dev : Device) :
    device_state_attributes dev = foldInserts [] (allWrites dev) := by
  have h0 : attrStep0 dev = foldInserts [] (baseWrites dev) := rfl
  have h1 : attrStep1 dev = foldInserts (attrStep0 dev) (rssiWrites dev) := by
    unfold attrStep1 rssiWrites
    cases has_state dev [CORE_RSSI_LEVEL_STATE] with
    | true => rfl
    | false => rfl
  have h2 : attrStep2 dev = foldInserts (attrStep1 dev) (staticWrites dev) := by
    unfold attrStep2 staticWrites
    cases hat : dev.attributes with
    | none => rfl
    | some attrs =>
        cases attrs with
        | nil => rfl
        | cons a l => exact foldl_dictInsert_eq (a :: l) (attrStep1 dev)
  have h3 : device_state_attributes dev =
      foldInserts (attrStep2 dev) (stateWrites dev) := by
    unfold device_state_attributes stateWrites
    cases hst : dev.states with
    | none => rfl
    | some states =>
        cases states with
        | nil => rfl
        | cons s l => exact foldl_state_dictInsert_eq (s :: l) (attrStep2 dev)
  rw [h3, h2, h1, h0, ← foldInserts_append, ← foldInserts_append,
    ← foldInserts_append]
  unfold allWrites
  rw [List.append_assoc, List.append_assoc]

/-- Concrete device of C5's example: ui_class "Shutter", widget
"UpDownExteriorBlind", no RSSI state, one static attribute
manufacturer="X", one state core:ClosureState="50". -/
def exampleShutter : Device :=
  { deviceurl := "io://1234-5678-9012/12345", label := "Blind",
    ui_class := "Shutter", widget := "UpDownExteriorBlind",
    controllable_name := "io:ExteriorBlindIOComponent",
    definition_commands := [],
    attributes := some [⟨"manufacturer", some "X"⟩],
    states := some [⟨"core:ClosureState", some "50"⟩],
    available := true }

/-- C5: the attributes mapping is the last-write-wins merge of the write
sequence ui/widget/controllable fields, then the RSSI entry (only when the
well-known RSSI state is active), then every static attribute, then every
state whose name contains `"State"` — for every key, the stored value is
the last write of that key in this sequence; and on the example device the
resulting mapping holds exactly ui_class, widget, controllable_name,
manufacturer="X" and core:ClosureState="50". -/
theorem device_state_attributes_last_write_wins :
    (∀ (dev : Device) (k : String),
       dictGet (device_state_attributes dev) k =
         ((allWrites dev).reverse.find? (fun p => p.1 == k)).map
           (fun p => p.2)) ∧
    device_state_attributes exampleShutter =
      [("ui_class", some "Shutter"), ("widget", some "UpDownExteriorBlind"),
       ("controllable_name", some "io:ExteriorBlindIOComponent"),
       ("manufacturer", some "X"), ("core:ClosureState", some "50")] := by
  constructor
  · intro dev k
    rw [device_state_attributes_eq_foldInserts, dictGet_foldInserts]
    show _ = _
    cases ((allWrites dev).reverse.find? (fun p => p.1 == k)).map
        (fun p => p.2) with
    | none => rfl
    | some v => rfl
  · rfl

/-- Python truthiness-based `or` for strings: `x or default` falls back on
`None` and on the empty string. -/
def pyOr (o : Option String) (default : String) : String :=
  match o with
  | some s => if s.isEmpty then default else s
  | none => default

/-- Python `s.split("#")` on the character level: `"a#b"` → `["a","b"]`,
`"abc"` → `["abc"]`, `"#"` → `["",""]`. -/
def splitHashChars : List Char → List (List Char)
  | [] => [[]]
  | c :: rest =>
      if c == '#' then [] :: splitHashChars rest
      else
        match splitHashChars rest with
        | [] => [[c]]
        | h :: t => (c :: h) :: t

/-- One entry of the host entity registry: stable unique identifier and
(possibly absent) original display name. -/
structure RegistryEntry where
  unique_id : String
  original_name : Option String
  deriving DecidableEq, Repr

/-- The dictionary returned by `TahomaDevice.device_info` (the
`identifiers` singleton set is the pair it contains). -/
structure DeviceInfo where
  identifiers : String × String
  manufacturer : String
  name : Option String
  model : String
  sw_version : String
  deriving DecidableEq, Repr

/-- `TahomaDevice.device_info`.  The registry is the ordered view of
`entity_registry.entities.items()` (entry part only).  When the bound
identity contains `#`, `device_url, _ = self.device.deviceurl.split("#")`
unpacks the split into exactly two names — any other number of parts
raises a `ValueError`, hence the `Except`.  The theorems assume
`dev.deviceurl = device_url` (the coordinator maps each identity to the
snapshot carrying that same identity; the source reads both). -/
def device_info (dev : Device) (device_url : String)
    (registry : List RegistryEntry) : Except String DeviceInfo :=
  if device_url.data.contains '#' then
    match splitHashChars dev.deviceurl.data with
    | [base, _] =>
        Except.ok
          { identifiers := (DOMAIN, String.mk base),
            manufacturer :=
              pyOr (select_state dev [CORE_MANUFACTURER_NAME_STATE]) "Somfy",
            name :=
              (registry.find?
                (fun e => e.unique_id == String.mk base ++ "#1")).bind
                (fun e => e.original_name),
            model := pyOr (select_state dev [CORE_MODEL_STATE]) dev.widget,
            sw_version := dev.controllable_name }
    | _ => Except.error "ValueError"
  else
    Except.ok
      { identifiers := (DOMAIN, device_url),
        manufacturer :=
          pyOr (select_state dev [CORE_MANUFACTURER_NAME_STATE]) "Somfy",
        name := some dev.label,
        model := pyOr (select_state dev [CORE_MODEL_STATE]) dev.widget,
        sw_version := dev.controllable_name }

theorem splitHashChars_no_hash (l : List Char) (h : '#' ∉ l) :
    splitHashChars l = [l] := by
  induction l with
  | nil => rfl
  | cons c rest ih =>
      have hc : ¬ (c == '#') = true := by
        simp only [beq_iff_eq]
        intro e
        exact h (e ▸ List.mem_cons_self c rest)
      have hrest : '#' ∉ rest := fun hm => h (List.mem_cons_of_mem c hm)
      unfold splitHashChars
      rw [if_neg hc, ih hrest]

theorem splitHashChars_single (pre suf : List Char) (h : '#' ∉ pre) :
    splitHashChars (pre ++ '#' :: suf) = pre :: splitHashChars suf := by
  induction pre with
  | nil =>
      show splitHashChars ('#' :: suf) = [] :: splitHashChars suf
      rfl
  | cons c rest ih =>
      have hc : ¬ (c == '#') = true := by
        simp only [beq_iff_eq]
        intro e
        exact h (e ▸ List.mem_cons_self c rest)
      have hrest : '#' ∉ rest := fun hm => h (List.mem_cons_of_mem c hm)
      show splitHashChars (c :: (rest ++ '#' :: suf)) = _
      conv_lhs => unfold splitHashChars
      rw [if_neg hc, ih hrest]

theorem data_append_hash (pre suf : String) :
    (pre ++ "#" ++ suf).data = pre.data ++ '#' :: suf.data := by
  rw [String.data_append, String.data_append]
  have h : "#".data = ['#'] := by decide
  rw [h]
  simp

/-- Snapshot used by the C4 counterexample: identity with two `#`. -/
def exampleDoubleHash : Device :=
  { deviceurl := "io://1234-5678-9012/12345#1#2", label := "Thermostat",
    ui_class := "HeatingSystem", widget := "SomfyThermostat",
    controllable_name := "io:AtlanticPassAPCHeatingZoneComponent",
    definition_commands := [], attributes := none, states := none,
    available := true }

/-- Counterexample to C4 as stated: for the identity
`"io://1234-5678-9012/12345#1#2"` (which contains `#`, with first-`#`
prefix `"io://1234-5678-9012/12345"`) the operation does not produce
device-info at all — the two-name unpacking of `split("#")` raises a
`ValueError` — so no grouping key is derived. -/
theorem device_info_double_hash_raises :
    device_info exampleDoubleHash "io://1234-5678-9012/12345#1#2" [] =
      Except.error "ValueError" := rfl

/-- C4 (amended): when the identity contains exactly one `#`, the grouping
key in the identifiers is the prefix before the `#`; when it contains no
`#`, the grouping key is the identity itself, the standard display name
(the snapshot label) is used directly, and the registry is never consulted
(the result does not depend on it).  (With two or more `#` the operation
raises instead, per the counterexample.) -/
theorem device_info_grouping_key :
    (∀ (dev : Device) (pre suf : String) (registry : List RegistryEntry),
       dev.deviceurl = pre ++ "#" ++ suf →
       '#' ∉ pre.data → '#' ∉ suf.data →
       ∃ info, device_info dev (pre ++ "#" ++ suf) registry =
           Except.ok info ∧ info.identifiers = (DOMAIN, pre)) ∧
    (∀ (dev : Device) (url : String) (registry registry' : List RegistryEntry),
       dev.deviceurl = url → '#' ∉ url.data →
       ∃ info, device_info dev url registry = Except.ok info ∧
         info.identifiers = (DOMAIN, url) ∧ info.name = some dev.label ∧
         device_info dev url registry = device_info dev url registry') := by
  constructor
  · intro dev pre suf registry hdev hpre hsuf
    have hdata : (pre ++ "#" ++ suf).data = pre.data ++ '#' :: suf.data :=
      data_append_hash pre suf
    have hcond : (pre ++ "#" ++ suf).data.contains '#' = true := by
      rw [hdata]
      exact (contains_eq_true_iff _ _).mpr
        (List.mem_append_right _ (List.mem_cons_self _ _))
    have hsplit : splitHashChars (pre ++ "#" ++ suf).data =
        [pre.data, suf.data] := by
      rw [hdata, splitHashChars_single pre.data suf.data hpre,
        splitHashChars_no_hash suf.data hsuf]
    have heq : device_info dev (pre ++ "#" ++ suf) registry = Except.ok
        { identifiers := (DOMAIN, pre),
          manufacturer :=
            pyOr (select_state dev [CORE_MANUFACTURER_NAME_STATE]) "Somfy",
          name :=
            (registry.find? (fun e => e.unique_id == pre ++ "#1")).bind
              (fun e => e.original_name),
          model := pyOr (select_state dev [CORE_MODEL_STATE]) dev.widget,
          sw_version := dev.controllable_name } := by
      unfold device_info
      rw [if_pos hcond, hdev, hsplit]
    exact ⟨_, heq, rfl⟩
  · intro dev url registry registry' hdev hurl
    have hcond : ¬ (url.data.contains '#') = true := by
      intro hc
      exact hurl ((contains_eq_true_iff _ _).mp hc)
    have heq : ∀ reg : List RegistryEntry,
        device_info dev url reg = Except.ok
          { identifiers := (DOMAIN, url),
            manufacturer :=
              pyOr (select_state dev [CORE_MANUFACTURER_NAME_STATE]) "Somfy",
            name := some dev.label,
            model := pyOr (select_state dev [CORE_MODEL_STATE]) dev.widget,
            sw_version := dev.controllable_name } := by
      intro reg
      unfold device_info
      rw [if_neg hcond]
    exact ⟨_, heq registry, rfl, rfl,
      (heq registry).trans (heq registry').symm⟩

/-- Witness for the amended C4 at the spec's example identity
`"io://1234-5678-9012/12345#1"`: grouping key is the prefix before `#`. -/
theorem device_info_grouping_key_witness :
    ∃ info, device_info
        { deviceurl := "io://1234-5678-9012/12345" ++ "#" ++ "1",
          label := "Thermostat", ui_class := "HeatingSystem",
          widget := "SomfyThermostat",
          controllable_name := "io:AtlanticPassAPCHeatingZoneComponent",
          definition_commands := [], attributes := none, states := none,
          available := true }
        ("io://1234-5678-9012/12345" ++ "#" ++ "1") [] = Except.ok info ∧
      info.identifiers = (DOMAIN, "io://1234-5678-9012/12345") :=
  device_info_grouping_key.1
    { deviceurl := "io://1234-5678-9012/12345" ++ "#" ++ "1",
      label := "Thermostat", ui_class := "HeatingSystem",
      widget := "SomfyThermostat",
      controllable_name := "io:AtlanticPassAPCHeatingZoneComponent",
      definition_commands := [], attributes := none, states := none,
      available := true }
    "io://1234-5678-9012/12345" "1" [] rfl (by decide) (by decide)
